import Mathlib

/-!
Verification of the physics lifecycle core of `washington254/jolt-physics-`
(`src/App.tsx`): the per-frame stepping parameters computed in the
`Physics` component's `useFrame` callback, the body registry (a JS `Map`
from renderable id to `{body, three}`), and the create/destroy lifecycle
performed in the `RigidBody` component's `useEffect`.

Time quantities are modelled as rationals; JS `Map` operations are
modelled on association lists with JS `Map` semantics (`set` overwrites,
`delete` removes and reports presence).
-/

/-! ## World Stepper (`useFrame` callback, App.tsx lines 43-51) -/

/-- Source: `const deltaTime = Math.min(delta, 1.0 / 30.0);` -/
def deltaTime (delta : ℚ) : ℚ := min delta (1 / 30)

/-- Source: `const numSteps = deltaTime > 1.0 / 55.0 ? 2 : 1;` (note: tested on the
clamped `deltaTime`, not on the raw `delta`). -/
def numSteps (delta : ℚ) : ℕ := if deltaTime delta > 1 / 55 then 2 else 1

/-! ## Body registry (`bodies : Map<number, {body, three}>`) -/

/-- The value stored in the `bodies` map: the created body's id
(`body.GetID()`) and the renderable object (`ref.current`), by id. -/
structure BodyRecord where
  body : ℕ
  three : ℕ
deriving DecidableEq, Repr

/-- The `bodies` map, as an insertion-ordered association list
(JS `Map` iteration order). -/
abbrev Registry := List (ℕ × BodyRecord)

/-- Lookup by entity (renderable) id: `bodies.get(e)`. -/
def Registry.get? (r : Registry) (e : ℕ) : Option BodyRecord :=
  (r.find? (fun p => p.1 = e)).map (fun p => p.2)

/-- Source: `bodies.set(e, v)` — JS `Map.set`: update in place if the key is
present (keeping insertion order), otherwise append. -/
def Registry.set (r : Registry) (e : ℕ) (v : BodyRecord) : Registry :=
  if r.any (fun p => p.1 = e) then
    r.map (fun p => if p.1 = e then (e, v) else p)
  else r ++ [(e, v)]

/-- Source: `bodies.delete(e)` — JS `Map.delete`: remove the entry if present and
return whether the key existed. -/
def Registry.delete (r : Registry) (e : ℕ) : Registry × Bool :=
  (r.filter (fun p => p.1 ≠ e), r.any (fun p => p.1 = e))

/-! ## Shape Factory (App.tsx lines 105-120) -/

/-- The errors thrown in the `useEffect` body:
`throw new Error("unsupported shape type " + shapeType)` and
`throw new Error("unsupported type " + type)`. -/
inductive ConfigurationError where
  | unsupportedShapeType (shapeType : String)
  | unsupportedMotionClass (type : String)
deriving DecidableEq, Repr

/-- A constructed collision shape: `new jolt.BoxShape(halfExtents,
convexRadius, null)` or `new jolt.SphereShape(radius, null)`. -/
inductive Shape where
  | box (hx hy hz : ℚ) (convexRadius : ℚ)
  | sphere (radius : ℚ)
deriving DecidableEq, Repr

/-- The shape branch of the `useEffect`: `args[0..2]` halved for a box
(with convex radius `0.05`), `args[0]` passed through for a sphere,
a thrown error otherwise. -/
def mkShape (shapeType : String) (args : List ℚ) : Except ConfigurationError Shape :=
  if shapeType = "box" then
    .ok (.box (args.getD 0 0 * 0.5) (args.getD 1 0 * 0.5) (args.getD 2 0 * 0.5) 0.05)
  else if shapeType = "sphere" then
    .ok (.sphere (args.getD 0 0))
  else
    .error (.unsupportedShapeType shapeType)

/-! ## Body Factory (App.tsx lines 122-147) -/

/-- The `Jolt.EMotionType` values used by the code (`jolt.Static`,
`jolt.Kinematic`, `jolt.Dynamic`). -/
inductive EMotionType where
  | Static
  | Kinematic
  | Dynamic
deriving DecidableEq, Repr

/-- The `jolt.NON_MOVING` object layer (opaque constant, distinct from
`MOVING`). -/
def NON_MOVING : ℕ := 0

/-- The `jolt.MOVING` object layer. -/
def MOVING : ℕ := 1

/-- The motion branch of the `useEffect`: maps the `type` string to the
`{motionType, objectLayer}` pair, throwing otherwise. -/
def mkMotion (type : String) : Except ConfigurationError (EMotionType × ℕ) :=
  if type = "static" then .ok (.Static, NON_MOVING)
  else if type = "kinematic" then .ok (.Kinematic, MOVING)
  else if type = "dynamic" then .ok (.Dynamic, MOVING)
  else .error (.unsupportedMotionClass type)

/-- Source: `new jolt.BodyCreationSettings(shape, position, rotation, motionType,
objectLayer)` with `mRestitution = 0.5`. -/
structure BodyCreationSettings where
  shape : Shape
  position : ℚ × ℚ × ℚ
  rotation : ℚ × ℚ × ℚ × ℚ
  motionType : EMotionType
  objectLayer : ℕ
  mRestitution : ℚ
deriving DecidableEq, Repr

/-- A body created via `bodyInterface.CreateBody` and added to the world
via `bodyInterface.AddBody(id, jolt.Activate)`. -/
structure CreatedBody where
  id : ℕ
  settings : BodyCreationSettings
  activated : Bool
deriving DecidableEq, Repr

/-- The mutable state the `RigidBody` effect acts on: the `bodies`
registry, the bodies currently added to (and not destroyed in) the
simulation world, and the engine's body-id allocator. -/
structure WorldState where
  registry : Registry
  worldBodies : List CreatedBody
  nextBodyId : ℕ
deriving DecidableEq, Repr

/-- The props and identifiers a `RigidBody` mount works from:
`shape`, `type`, `args`, `position`, and `ref.current.id` (used both as
the registry key and stored alongside the body). -/
structure CreateRequest where
  shapeType : String
  type : String
  args : List ℚ
  position : ℚ × ℚ × ℚ
  entityId : ℕ
deriving Repr

/-- The mount half of the `RigidBody` `useEffect` (App.tsx lines
104-152): build the shape, map the motion class, create the body with
restitution 0.5 and identity rotation, add it activated, and
`bodies.set` the record. A thrown error aborts before any body is
created. -/
def createEntity (st : WorldState) (req : CreateRequest) :
    Except ConfigurationError WorldState :=
  match mkShape req.shapeType req.args with
  | .error err => .error err
  | .ok shape =>
    match mkMotion req.type with
    | .error err => .error err
    | .ok (motionType, objectLayer) =>
      let creationSettings : BodyCreationSettings :=
        { shape := shape, position := req.position, rotation := (0, 0, 0, 1),
          motionType := motionType, objectLayer := objectLayer, mRestitution := 0.5 }
      let body : CreatedBody :=
        { id := st.nextBodyId, settings := creationSettings, activated := true }
      .ok { registry := Registry.set st.registry req.entityId
              { body := body.id, three := req.entityId },
            worldBodies := st.worldBodies ++ [body],
            nextBodyId := st.nextBodyId + 1 }

/-- The effect as React runs it: a throw leaves the outside state
untouched. -/
def applyCreate (st : WorldState) (req : CreateRequest) : WorldState :=
  match createEntity st req with
  | .ok st' => st'
  | .error _ => st

/-! ## Destruction (the `useEffect` cleanup, App.tsx lines 154-157) -/

/-- The individual operations the cleanup performs, in order. -/
inductive LifecycleEvent where
  | registryRemove (e : ℕ)
  | bodyDestroy (bid : ℕ)
deriving DecidableEq, Repr

/-- Source: `bodies.delete(ref.current.id);` -/
def removeFromRegistry (st : WorldState) (e : ℕ) : WorldState :=
  { st with registry := (Registry.delete st.registry e).1 }

/-- Source: `bodyInterface.DestroyBody(body.GetID());` -/
def destroyBody (st : WorldState) (bid : ℕ) : WorldState :=
  { st with worldBodies := st.worldBodies.filter (fun b => b.id ≠ bid) }

/-- The cleanup's operation sequence: registry removal, then body
destruction — its single exit path. -/
def destroyEvents (e bid : ℕ) : List LifecycleEvent :=
  [.registryRemove e, .bodyDestroy bid]

/-- Interpret one lifecycle operation on the state. -/
def applyEvent (st : WorldState) : LifecycleEvent → WorldState
  | .registryRemove e => removeFromRegistry st e
  | .bodyDestroy bid => destroyBody st bid

/-- The unmount half of the `useEffect`: run the cleanup's operations in
order. `e` is `ref.current.id`, `bid` is the captured `body.GetID()`. -/
def destroyEntity (st : WorldState) (e bid : ℕ) : WorldState :=
  (destroyEvents e bid).foldl applyEvent st

/-- Every registry record refers to a body currently in the simulation
world (spec §3 invariant: no dangling handles). -/
def registryLive (st : WorldState) : Prop :=
  ∀ p ∈ st.registry, ∃ b ∈ st.worldBodies, b.id = p.2.body

/-! ## The registry operations as §4.3 of the specification words them,
for comparison with the source's `Map.set` / `Map.delete`. -/

/-- Spec §7 registry error taxonomy. -/
inductive RegistryConsistencyError where
  | DuplicateEntity (e : ℕ)
  | UnknownEntity (e : ℕ)
deriving DecidableEq, Repr

/-- The operation `register` as the specification words it: inserts a new record, fails
with `DuplicateEntity` if the entity id is already present. (Spec-side
definition, to be compared with the source's `Registry.set`.) -/
def registerSpec (r : Registry) (e : ℕ) (v : BodyRecord) :
    Except RegistryConsistencyError Registry :=
  if r.any (fun p => p.1 = e) then .error (.DuplicateEntity e)
  else .ok (r ++ [(e, v)])

/-- The operation `unregister` as the specification words it: removes and returns the
record, or fails with `UnknownEntity` if absent. (Spec-side definition,
to be compared with the source's `Registry.delete`.) -/
def unregisterSpec (r : Registry) (e : ℕ) :
    Except RegistryConsistencyError (BodyRecord × Registry) :=
  match Registry.get? r e with
  | some v => .ok (v, (Registry.delete r e).1)
  | none => .error (.UnknownEntity e)

/-! ## Concrete states used by the witnesses -/

/-- A fresh world: empty registry, no bodies, allocator at 0. -/
def st0 : WorldState := { registry := [], worldBodies := [], nextBodyId := 0 }

/-- A concrete valid mount request: a dynamic unit box at (0, 10, 0),
renderable id 7. -/
def req0 : CreateRequest :=
  { shapeType := "box", type := "dynamic", args := [1, 1, 1],
    position := (0, 10, 0), entityId := 7 }

/-- A concrete invalid mount request: unrecognized shape kind. -/
def reqBad : CreateRequest :=
  { shapeType := "capsule", type := "dynamic", args := [1],
    position := (0, 0, 0), entityId := 7 }

/-- A world holding one registered entity (id 1) whose body (id 5) is in
the world. -/
def st1 : WorldState :=
  { registry := [(1, { body := 5, three := 9 })],
    worldBodies :=
      [{ id := 5,
         settings :=
           { shape := .sphere 1, position := (0, 0, 0),
             rotation := (0, 0, 0, 1), motionType := .Dynamic,
             objectLayer := MOVING, mRestitution := 0.5 },
         activated := true }],
    nextBodyId := 6 }

/-! # Theorems -/

/-- Claim C1: for every frame tick with elapsed time `rawDelta ≥ 0`, the
timestep passed to `joltInterface.Step` is `min(rawDelta, 1/30)`, hence
never exceeds 1/30 second. -/
theorem clamped_delta_min (rawDelta : ℚ) (h : 0 ≤ rawDelta) :
    deltaTime rawDelta = min rawDelta (1 / 30) ∧ deltaTime rawDelta ≤ 1 / 30 :=
  ⟨rfl, min_le_right _ _⟩

theorem clamped_delta_min_witness :
    (0 : ℚ) ≤ 1 ∧ (deltaTime 1 = min 1 (1 / 30) ∧ deltaTime 1 ≤ 1 / 30) :=
  ⟨by norm_num, clamped_delta_min 1 (by norm_num)⟩

/-- Claim C2: the sub-step count is 2 exactly when `rawDelta > 1/55` and
1 otherwise; although the code tests the clamped `deltaTime`, this is
equivalent to the condition on the raw delta because `1/55 < 1/30`. -/
theorem numSteps_matches_rawDelta_threshold (rawDelta : ℚ) :
    numSteps rawDelta = if rawDelta > 1 / 55 then 2 else 1 := by
  unfold numSteps deltaTime
  by_cases h : (1 : ℚ) / 55 < rawDelta
  · rw [if_pos h, if_pos (lt_min h (by norm_num))]
  · rw [if_neg h, if_neg]
    intro hc
    exact h (lt_of_lt_of_le hc (min_le_left _ _))

/-- Claim C10: each sub-step's duration `deltaTime / numSteps` never
exceeds 1/55 second, and in the two-sub-step case never exceeds 1/60
second. -/
theorem substep_duration_bounds (rawDelta : ℚ) (h : 0 ≤ rawDelta) :
    deltaTime rawDelta / (numSteps rawDelta : ℚ) ≤ 1 / 55 ∧
      (numSteps rawDelta = 2 →
        deltaTime rawDelta / (numSteps rawDelta : ℚ) ≤ 1 / 60) := by
  have hle : deltaTime rawDelta ≤ 1 / 30 := min_le_right _ _
  by_cases hc : deltaTime rawDelta > 1 / 55
  · have hn : numSteps rawDelta = 2 := if_pos hc
    rw [hn]
    push_cast
    constructor
    · linarith
    · intro _; linarith
  · have hn : numSteps rawDelta = 1 := if_neg hc
    have hd : deltaTime rawDelta ≤ 1 / 55 := not_lt.mp hc
    rw [hn]
    push_cast
    constructor
    · simpa using hd
    · intro hcontra; exact absurd hcontra (by norm_num)

theorem substep_duration_bounds_witness :
    (0 : ℚ) ≤ 1 / 40 ∧
      (deltaTime (1 / 40) / (numSteps (1 / 40) : ℚ) ≤ 1 / 55 ∧
        (numSteps (1 / 40) = 2 →
          deltaTime (1 / 40) / (numSteps (1 / 40) : ℚ) ≤ 1 / 60)) :=
  ⟨by norm_num, substep_duration_bounds (1 / 40) (by norm_num)⟩

/-- Claim C6: a box descriptor with full dimensions `(sx, sy, sz)` yields
a box shape with half-extents `(sx*0.5, sy*0.5, sz*0.5)` and convex
radius 0.05; a sphere descriptor passes its radius through unchanged. -/
theorem shapeFactory_box_sphere :
    (∀ sx sy sz : ℚ, mkShape "box" [sx, sy, sz] =
      .ok (.box (sx * 0.5) (sy * 0.5) (sz * 0.5) 0.05)) ∧
    (∀ r : ℚ, mkShape "sphere" [r] = .ok (.sphere r)) :=
  ⟨fun _ _ _ => rfl, fun _ => rfl⟩

lemma any_key_eq_isSome_find (r : Registry) (e : ℕ) :
    r.any (fun p => p.1 = e) = (r.find? (fun p => p.1 = e)).isSome := by
  induction r with
  | nil => rfl
  | cons p t ih =>
    by_cases hp : p.1 = e
    · simp [List.any_cons, List.find?_cons, hp]
    · simp [List.any_cons, List.find?_cons, hp, ih]

lemma find_map_overwrite (r : Registry) (e : ℕ) (v : BodyRecord)
    (hx : r.any (fun p => p.1 = e) = true) :
    (r.map (fun p => if p.1 = e then (e, v) else p)).find?
      (fun p => p.1 = e) = some (e, v) := by
  induction r with
  | nil => simp at hx
  | cons p t ih =>
    by_cases hp : p.1 = e
    · simp [List.find?_cons, hp]
    · have ht : t.any (fun p => p.1 = e) = true := by
        simpa [List.any_cons, hp] using hx
      simp [List.find?_cons, hp, ih ht]

lemma get_delete_self (r : Registry) (e : ℕ) :
    Registry.get? (Registry.delete r e).1 e = none := by
  have hfind : (Registry.delete r e).1.find? (fun p => p.1 = e) = none := by
    rw [List.find?_eq_none]
    intro x hx
    have hmem := List.mem_filter.mp hx
    simpa using (of_decide_eq_true hmem.2)
  simp [Registry.get?, hfind]

/-- Claim C3 counterexample: with entity id 1 already present, the
source's `bodies.set` does not fail — it silently replaces the stored
record — whereas the register of the specification reports
`DuplicateEntity`. -/
theorem register_duplicate_counterexample :
    Registry.set [(1, ⟨5, 9⟩)] 1 ⟨6, 10⟩ = [(1, ⟨6, 10⟩)] ∧
    Registry.get? (Registry.set [(1, ⟨5, 9⟩)] 1 ⟨6, 10⟩) 1 ≠ some ⟨5, 9⟩ ∧
    registerSpec [(1, ⟨5, 9⟩)] 1 ⟨6, 10⟩ =
      .error (.DuplicateEntity 1) := by
  refine ⟨rfl, ?_, rfl⟩
  decide

/-- Claim C3 (amended): registering an entity id that is already present
does not fail; `bodies.set` silently overwrites the existing record in
place, leaving the registry's size unchanged. -/
theorem register_duplicate_overwrites (r : Registry) (e : ℕ) (v : BodyRecord)
    (h : (Registry.get? r e).isSome) :
    Registry.get? (Registry.set r e v) e = some v ∧
    (Registry.set r e v).length = r.length := by
  have hany : r.any (fun p => p.1 = e) = true := by
    rw [any_key_eq_isSome_find]
    simpa [Registry.get?, Option.isSome_map] using h
  unfold Registry.set
  rw [if_pos hany]
  constructor
  · simp [Registry.get?, find_map_overwrite r e v hany]
  · exact List.length_map _ _

theorem register_duplicate_overwrites_witness :
    Registry.get? (Registry.set [(1, ⟨5, 9⟩)] 1 ⟨6, 10⟩) 1 = some ⟨6, 10⟩ ∧
    (Registry.set [(1, ⟨5, 9⟩)] 1 ⟨6, 10⟩).length =
      ([(1, ⟨5, 9⟩)] : Registry).length :=
  register_duplicate_overwrites [(1, ⟨5, 9⟩)] 1 ⟨6, 10⟩ (by decide)

/-- Claim C4 counterexample: on an empty registry, the source's
`bodies.delete(1)` does not fail — it returns the unchanged map and the
flag `false` — whereas the unregister of the specification reports
`UnknownEntity`. -/
theorem unregister_absent_counterexample :
    Registry.delete ([] : Registry) 1 = ([], false) ∧
    unregisterSpec ([] : Registry) 1 = .error (.UnknownEntity 1) :=
  ⟨rfl, rfl⟩

/-- Claim C4 (amended): `bodies.delete` never fails. It removes the
record and returns the presence flag `true` when the entity id is
present (the record itself is not returned), and returns `false` leaving
the registry unchanged when it is absent. -/
theorem unregister_semantics (r : Registry) (e : ℕ) :
    (Registry.delete r e).2 = (Registry.get? r e).isSome ∧
    Registry.get? (Registry.delete r e).1 e = none ∧
    ((Registry.get? r e).isSome = false → (Registry.delete r e).1 = r) := by
  refine ⟨?_, get_delete_self r e, ?_⟩
  · rw [show (Registry.delete r e).2 = r.any (fun p => p.1 = e) from rfl,
      any_key_eq_isSome_find]
    simp [Registry.get?, Option.isSome_map]
  · intro habs
    have hall : ∀ (a : ℕ) (b : BodyRecord), (a, b) ∈ r → ¬a = e := by
      simpa [Registry.get?, Option.isSome_map] using habs
    show r.filter (fun p => p.1 ≠ e) = r
    rw [List.filter_eq_self]
    intro p hp
    simpa using hall p.1 p.2 (by simpa using hp)

theorem unregister_semantics_witness :
    ((Registry.delete ([(1, ⟨5, 9⟩)] : Registry) 2).2 =
      (Registry.get? [(1, ⟨5, 9⟩)] 2).isSome ∧
    Registry.get? (Registry.delete ([(1, ⟨5, 9⟩)] : Registry) 2).1 2 = none ∧
    (Registry.delete ([(1, ⟨5, 9⟩)] : Registry) 2).1 = [(1, ⟨5, 9⟩)]) :=
  ⟨(unregister_semantics [(1, ⟨5, 9⟩)] 2).1,
   (unregister_semantics [(1, ⟨5, 9⟩)] 2).2.1,
   (unregister_semantics [(1, ⟨5, 9⟩)] 2).2.2 (by decide)⟩

lemma createEntity_ok (st : WorldState) (req : CreateRequest) (st' : WorldState)
    (hok : createEntity st req = .ok st') :
    ∃ shape mt layer,
      mkShape req.shapeType req.args = .ok shape ∧
      mkMotion req.type = .ok (mt, layer) ∧
      st' = { registry := Registry.set st.registry req.entityId
                ⟨st.nextBodyId, req.entityId⟩,
              worldBodies := st.worldBodies ++
                [⟨st.nextBodyId,
                  ⟨shape, req.position, (0, 0, 0, 1), mt, layer, 0.5⟩, true⟩],
              nextBodyId := st.nextBodyId + 1 } := by
  cases hs : mkShape req.shapeType req.args with
  | error err => simp [createEntity, hs] at hok
  | ok shape =>
    cases hm : mkMotion req.type with
    | error err => simp [createEntity, hs, hm] at hok
    | ok ml =>
      obtain ⟨mt, layer⟩ := ml
      refine ⟨shape, mt, layer, rfl, rfl, ?_⟩
      simp [createEntity, hs, hm] at hok
      exact hok.symm

/-- Claim C7: the motion branch maps `static` to `{Static, NON_MOVING}`,
`kinematic` to `{Kinematic, MOVING}` and `dynamic` to `{Dynamic,
MOVING}`; every successful mount adds exactly one body to the world,
built from that pair, in the activated state. -/
theorem bodyFactory_motion_mapping :
    (mkMotion "static" = .ok (.Static, NON_MOVING) ∧
     mkMotion "kinematic" = .ok (.Kinematic, MOVING) ∧
     mkMotion "dynamic" = .ok (.Dynamic, MOVING)) ∧
    ∀ st req st', createEntity st req = .ok st' →
      ∃ shape mt layer,
        mkShape req.shapeType req.args = .ok shape ∧
        mkMotion req.type = .ok (mt, layer) ∧
        st'.worldBodies = st.worldBodies ++
          [{ id := st.nextBodyId,
             settings := { shape := shape, position := req.position,
                           rotation := (0, 0, 0, 1), motionType := mt,
                           objectLayer := layer, mRestitution := 0.5 },
             activated := true }] := by
  refine ⟨⟨rfl, rfl, rfl⟩, ?_⟩
  intro st req st' hok
  obtain ⟨shape, mt, layer, hs, hm, hst⟩ := createEntity_ok st req st' hok
  exact ⟨shape, mt, layer, hs, hm, by rw [hst]⟩

theorem bodyFactory_motion_mapping_witness :
    ∃ shape mt layer,
      mkShape req0.shapeType req0.args = .ok shape ∧
      mkMotion req0.type = .ok (mt, layer) ∧
      (applyCreate st0 req0).worldBodies = st0.worldBodies ++
        [{ id := st0.nextBodyId,
           settings := { shape := shape, position := req0.position,
                         rotation := (0, 0, 0, 1), motionType := mt,
                         objectLayer := layer, mRestitution := 0.5 },
           activated := true }] :=
  bodyFactory_motion_mapping.2 st0 req0 (applyCreate st0 req0) rfl

/-- Claim C5: creating an entity and then destroying it, with no frame
tick in between, leaves no registry record for the entity and restores
the world's body count to its value from before the creation. The
freshness hypothesis says the engine's allocator never hands out the id
of a body already in the world. -/
theorem create_destroy_roundtrip (st : WorldState) (req : CreateRequest)
    (st' : WorldState)
    (hfresh : ∀ b ∈ st.worldBodies, b.id < st.nextBodyId)
    (hok : createEntity st req = .ok st') :
    Registry.get? (destroyEntity st' req.entityId st.nextBodyId).registry
      req.entityId = none ∧
    (destroyEntity st' req.entityId st.nextBodyId).worldBodies.length =
      st.worldBodies.length := by
  obtain ⟨shape, mt, layer, _, _, hst⟩ := createEntity_ok st req st' hok
  constructor
  · exact get_delete_self _ _
  · show ((st'.worldBodies).filter (fun b => b.id ≠ st.nextBodyId)).length =
      st.worldBodies.length
    have hw : st'.worldBodies = st.worldBodies ++
        [⟨st.nextBodyId,
          ⟨shape, req.position, (0, 0, 0, 1), mt, layer, 0.5⟩, true⟩] := by
      rw [hst]
    rw [hw, List.filter_append]
    have h1 : st.worldBodies.filter (fun b => b.id ≠ st.nextBodyId) =
        st.worldBodies := by
      rw [List.filter_eq_self]
      intro b hb
      simpa using Nat.ne_of_lt (hfresh b hb)
    rw [h1]
    simp

theorem create_destroy_roundtrip_witness :
    Registry.get? (destroyEntity (applyCreate st0 req0) req0.entityId
      st0.nextBodyId).registry req0.entityId = none ∧
    (destroyEntity (applyCreate st0 req0) req0.entityId
      st0.nextBodyId).worldBodies.length = st0.worldBodies.length :=
  create_destroy_roundtrip st0 req0 (applyCreate st0 req0)
    (by intro b hb; simp [st0] at hb) rfl

/-- Claim C8: a mount request whose shape kind is outside `{box, sphere}`
or whose motion class is outside `{static, kinematic, dynamic}` throws a
configuration error, and the thrown effect leaves the state untouched:
no body is created and the registry is unchanged. -/
theorem invalid_request_fails_atomically (st : WorldState) (req : CreateRequest)
    (h : (req.shapeType ≠ "box" ∧ req.shapeType ≠ "sphere") ∨
      (req.type ≠ "static" ∧ req.type ≠ "kinematic" ∧ req.type ≠ "dynamic")) :
    (∃ err : ConfigurationError, createEntity st req = .error err) ∧
    applyCreate st req = st ∧
    (applyCreate st req).registry = st.registry ∧
    (applyCreate st req).worldBodies = st.worldBodies := by
  have hfail : ∃ err : ConfigurationError, createEntity st req = .error err := by
    by_cases hb : req.shapeType = "box"
    · rcases h with ⟨h1, _⟩ | ⟨h1, h2, h3⟩
      · exact absurd hb h1
      · exact ⟨.unsupportedMotionClass req.type,
          by simp [createEntity, mkShape, mkMotion, hb, h1, h2, h3]⟩
    · by_cases hsp : req.shapeType = "sphere"
      · rcases h with ⟨_, h2⟩ | ⟨h1, h2, h3⟩
        · exact absurd hsp h2
        · exact ⟨.unsupportedMotionClass req.type,
            by simp [createEntity, mkShape, mkMotion, hb, hsp, h1, h2, h3]⟩
      · exact ⟨.unsupportedShapeType req.shapeType,
          by simp [createEntity, mkShape, hb, hsp]⟩
  obtain ⟨err, herr⟩ := hfail
  have happ : applyCreate st req = st := by unfold applyCreate; rw [herr]
  exact ⟨⟨err, herr⟩, happ, by rw [happ], by rw [happ]⟩

theorem invalid_request_fails_atomically_witness :
    (∃ err : ConfigurationError, createEntity st0 reqBad = .error err) ∧
    applyCreate st0 reqBad = st0 ∧
    (applyCreate st0 reqBad).registry = st0.registry ∧
    (applyCreate st0 reqBad).worldBodies = st0.worldBodies :=
  invalid_request_fails_atomically st0 reqBad (Or.inl ⟨by decide, by decide⟩)

/-- Claim C9: the cleanup's operation sequence removes the entity from
the registry strictly before destroying its body, and along every state
of that sequence each registry record still refers to a body that is in
the world — no record ever refers to an already-destroyed body. The
hypotheses say the invariant held at entry and that only the entity
being destroyed refers to the body being destroyed. -/
theorem destroy_registry_removal_precedes_body_destroy
    (st : WorldState) (e bid : ℕ)
    (hlive : registryLive st)
    (honly : ∀ p ∈ st.registry, p.2.body = bid → p.1 = e) :
    destroyEvents e bid = [.registryRemove e, .bodyDestroy bid] ∧
    destroyEntity st e bid =
      applyEvent (applyEvent st (.registryRemove e)) (.bodyDestroy bid) ∧
    registryLive (applyEvent st (.registryRemove e)) ∧
    registryLive (destroyEntity st e bid) := by
  refine ⟨rfl, rfl, ?_, ?_⟩
  · intro p hp
    exact hlive p (List.mem_filter.mp hp).1
  · intro p hp
    have hmem := List.mem_filter.mp hp
    have hpe : p.1 ≠ e := by simpa using hmem.2
    have hbid : p.2.body ≠ bid := fun hb => hpe (honly p hmem.1 hb)
    obtain ⟨b, hb, hid⟩ := hlive p hmem.1
    refine ⟨b, List.mem_filter.mpr ⟨hb, ?_⟩, hid⟩
    simpa [hid] using hbid

theorem destroy_registry_removal_precedes_body_destroy_witness :
    destroyEvents 1 5 = [.registryRemove 1, .bodyDestroy 5] ∧
    destroyEntity st1 1 5 =
      applyEvent (applyEvent st1 (.registryRemove 1)) (.bodyDestroy 5) ∧
    registryLive (applyEvent st1 (.registryRemove 1)) ∧
    registryLive (destroyEntity st1 1 5) :=
  destroy_registry_removal_precedes_body_destroy st1 1 5
    (by simp [registryLive, st1])
    (by simp [st1])
